import Mathlib

/-!
Verification of `replay.py` from the web-page-replay repository.

The file shallowly embeds the supervisor script `src/replay.py`:
the parsed command-line options (with the exact optparse defaults from the
source), the post-parse validation chain of the `__main__` block, the
`main` function with its nested `with` blocks, and `point_dns`.

Python values that are either `False` or a string (`options.spdy`,
`options.server`) are embedded as `Option String`, with `none` for `False`;
Python truthiness on such a value is "is a nonempty string".

The modules `dnsproxy`, `httpproxy`, `trafficshaper`, `platformsettings`
and `replayspdyserver` are not part of the repository sources; their
behaviour, where a claim needs it, is modelled from the specification and
from the option help text in `replay.py`, and each such definition carries
a doc comment saying so.  Runs of the program are modelled relative to an
environment that says which of those external operations raise which
exception; the observable behaviour is a trace of side-effect events plus
the escaping exception, from which the process exit code is computed.
-/

/-- Parsed command-line options of `replay.py`, with the optparse defaults
from the source (`option_parser.add_option` calls).  `spdy` and `server`
default to Python `False` / `None` and otherwise hold a string; both are
embedded as `Option String`. -/
structure Options where
  spdy : Option String := none
  record : Bool := false
  log_level : String := "debug"
  log_file : Option String := none
  up : String := "0"
  down : String := "0"
  delay_ms : String := "0"
  packet_loss_rate : String := "0"
  init_cwnd : String := "0"
  server : Option String := none
  server_mode : Bool := false
  deterministic_script : Bool := true
  dns_private_passthrough : Bool := true
  dns_forwarding : Bool := true
  port : Int := 80
  certfile : String := ""
  keyfile : String := ""
  deriving Repr, DecidableEq

/-- Python truthiness of `options.spdy` (`False` or a string): truthy iff a
nonempty string. -/
def spdyTruthy (o : Options) : Bool :=
  match o.spdy with
  | none => false
  | some s => s ≠ ""

/-- Python truthiness of `options.server`. -/
def serverTruthy (o : Options) : Bool :=
  match o.server with
  | none => false
  | some s => s ≠ ""

/-- The Python string value of `options.server` as passed to
`set_primary_dns(options.server)`. -/
def serverAddr (o : Options) : String :=
  o.server.getD ""

/-- Exceptions that the external modules and the sleep loop can raise in a
run of `replay.py`.  `otherExc` stands for any exception outside the three
named classes (for example `IndexError` from `args[0]`, or an archive I/O
error escaping the replay-server constructor). -/
inductive Exc where
  | keyboardInterrupt
  | dnsProxyException
  | trafficShaperException
  | otherExc
  deriving Repr, DecidableEq

/-- Side-effect events observable during a run: the platform-settings DNS
override and its restoration, and the start/stop of the three scoped
resources of `main` with the construction arguments from the source. -/
inductive Event where
  | setPrimaryDns (addr : String)
  | restorePrimaryDns
  | dnsServerStart (forwarding passthrough : Bool) (host : String)
  | dnsServerStop
  | replayStart (cls : String) (file : String) (detScript : Bool)
      (host : String) (port : Int) (useSsl : Bool) (certfile keyfile : String)
  | replayStop
  | shaperInstall (host : String) (port : Int)
      (up down delayMs lossRate initCwnd : String)
  | shaperRemove
  deriving Repr, DecidableEq

/-- Environment of a run: the address `socket.gethostbyname(socket.gethostname())`
resolves to, which external operations raise which exception, and the
exception that eventually terminates the infinite `time.sleep(1)` loop
(the loop never returns normally, so a terminating run ends it with an
exception, normally `KeyboardInterrupt` from SIGINT). -/
structure Env where
  machineAddr : String
  setDnsExc : Option Exc := none
  dnsStartExc : Option Exc := none
  replayStartExc : Option Exc := none
  shaperStartExc : Option Exc := none
  loopExc : Exc := Exc.keyboardInterrupt
  deriving Repr, DecidableEq

/-- `get_server_address(options)` from `replay.py`: the machine's externally
visible address when `--server_mode` is set, else `127.0.0.1`. -/
def get_server_address (o : Options) (machineAddr : String) : String :=
  if o.server_mode then machineAddr else "127.0.0.1"

/-- The `use_ssl=options.spdy != "no-ssl"` keyword argument of the replay
server construction in `main`.  In Python, `False != "no-ssl"` is `True`. -/
def use_ssl (o : Options) : Bool :=
  o.spdy ≠ some "no-ssl"

/-- The replay-server class chosen at the top of `main`:
`RecordHttpProxyServer` under `--record`, else `ReplaySpdyServer` under a
truthy `--spdy`, else `ReplayHttpProxyServer`. -/
def replay_server_class (o : Options) : String :=
  if o.record then "RecordHttpProxyServer"
  else if spdyTruthy o then "ReplaySpdyServer"
  else "ReplayHttpProxyServer"

/-- The post-parse validation chain of the `__main__` block
(`option_parser.error` calls, in source order).  Returns the message of the
first failing check; `option_parser.error` prints the message to stderr and
exits, so the first failing check decides the run. -/
def validate (o : Options) (args : List String) : Option String :=
  if ¬ serverTruthy o ∧ args.length ≠ 1 then
    some "Must specify a replay_file"
  else if o.record ∧ o.up ≠ "0" then
    some "Option --up cannot be used with --record."
  else if o.record ∧ o.down ≠ "0" then
    some "Option --down cannot be used with --record."
  else if o.record ∧ o.delay_ms ≠ "0" then
    some "Option --delay_ms cannot be used with --record."
  else if o.record ∧ o.packet_loss_rate ≠ "0" then
    some "Option --packet_loss_rate cannot be used with --record."
  else if o.record ∧ spdyTruthy o then
    some "Option --spdy cannot be used with --record."
  else if serverTruthy o ∧ o.server_mode then
    some "Cannot run with both --server and --server_mode"
  else
    none

/-- The `logging.warning` on `--spdy` with deterministic script enabled
(lines 266-269 of the source); reached only when every validation check
passed. -/
def spdyDeterministicWarning (o : Options) (args : List String) : Bool :=
  (validate o args).isNone && spdyTruthy o && o.deterministic_script

/-- Modelled from the spec: `platformsettings` is not under `src`.
`set-primary-dns(addr)` snapshots the resolver configuration and redirects
the system resolver to `addr`; `restore-primary-dns()` reinstates the
snapshot, which is the value at process entry.  A failed set proceeds no
further than the snapshot, so a restore after a failed set also leaves the
entry value.  This function folds a trace over the primary-DNS state. -/
def applyDnsState (entry : String) (tr : List Event) : String :=
  tr.foldl
    (fun cur e =>
      match e with
      | Event.setPrimaryDns a => a
      | Event.restorePrimaryDns => entry
      | _ => cur)
    entry

/-- `point_dns` from `replay.py` (client mode): sets the primary DNS to
`options.server` (the source reads the global `options`, whose `server`
field equals the argument at the only call site), sleeps forever, catches
`KeyboardInterrupt`, and restores the primary DNS in a `finally` block.
Returns the event trace and the escaping exception. -/
def point_dns (o : Options) (setDnsExc : Option Exc) (loopExc : Exc) :
    List Event × Option Exc :=
  match setDnsExc with
  | some e =>
      ([Event.restorePrimaryDns],
       if e = Exc.keyboardInterrupt then none else some e)
  | none =>
      ([Event.setPrimaryDns (serverAddr o), Event.restorePrimaryDns],
       if loopExc = Exc.keyboardInterrupt then none else some loopExc)

/-- Modelled from the spec: `dnsproxy.DnsProxyServer` is not under `src`.
Per the spec (DNS interceptor; platform adapter) and the source help text
of `--no-dns_forwarding` ("forward DNS requests to the local replay
server"), entering the DNS server with forwarding enabled points the
system's primary DNS at the given host before the server is active. -/
def dnsEnterTrace (o : Options) (host : String) : List Event :=
  (if o.dns_forwarding then [Event.setPrimaryDns host] else []) ++
    [Event.dnsServerStart o.dns_forwarding o.dns_private_passthrough host]

/-- Modelled from the spec: teardown of `dnsproxy.DnsProxyServer` stops the
server and, when forwarding was enabled, restores the primary DNS. -/
def dnsExitTrace (o : Options) : List Event :=
  Event.dnsServerStop ::
    (if o.dns_forwarding then [Event.restorePrimaryDns] else [])

/-- Events of the innermost `with trafficshaper.TrafficShaper(...)` block
of `main`: a failing construction leaves no events of its own; a
successful one installs the rules and removes them on exit (the shaper's
contract: rules active before control returns, fully removed on
teardown). -/
def shaperBlock (o : Options) (host : String) (env : Env) : List Event :=
  match env.shaperStartExc with
  | some _ => []
  | none =>
      [Event.shaperInstall host o.port o.up o.down o.delay_ms
          o.packet_loss_rate o.init_cwnd,
       Event.shaperRemove]

/-- Events of the `with replay_server_class(...)` block of `main`, with
the construction arguments from the source. -/
def replayBlock (o : Options) (file host : String) (env : Env) : List Event :=
  match env.replayStartExc with
  | some _ => []
  | none =>
      Event.replayStart (replay_server_class o) file o.deterministic_script
          host o.port (use_ssl o) o.certfile o.keyfile
        :: shaperBlock o host env ++ [Event.replayStop]

/-- Events of the outermost `with dnsproxy.DnsProxyServer(...)` block of
`main`. -/
def dnsBlock (o : Options) (file host : String) (env : Env) : List Event :=
  match env.dnsStartExc with
  | some _ => []
  | none => dnsEnterTrace o host ++ replayBlock o file host env ++ dnsExitTrace o

/-- `main(options, args)` from `replay.py`.  Client mode (`options.server`
truthy) runs `point_dns` and returns; its exceptions escape `main`, which
has no handler around that call.  Otherwise the replay-server class is
chosen, `args[0]` is read (an empty `args` raises `IndexError`), and the
three scoped resources are entered in order DNS server, replay server,
traffic shaper around the sleep loop; every exception of the `try` block is
caught by the `except` clauses, so `main` returns `None` on this path. -/
def mainRun (o : Options) (args : List String) (env : Env) :
    List Event × Option Exc :=
  if serverTruthy o then
    point_dns o env.setDnsExc env.loopExc
  else
    (match args with
     | [] => []
     | replay_file :: _ =>
        dnsBlock o replay_file (get_server_address o env.machineAddr) env,
     none)

/-- The process exit code from `sys.exit(main(options, args))`:
`sys.exit(None)` exits 0; an exception escaping `main` makes the
interpreter exit 1 with a traceback. -/
def pyExitCode (mainExc : Option Exc) : Nat :=
  match mainExc with
  | none => 0
  | some _ => 1

/-- The whole post-parse program: the validation chain first
(`option_parser.error` prints to stderr and calls `sys.exit(2)`, before any
side effect), then `sys.exit(main(options, args))`.  Returns the exit code
and the event trace. -/
def program (o : Options) (args : List String) (env : Env) :
    Nat × List Event :=
  match validate o args with
  | some _ => (2, [])
  | none =>
      let r := mainRun o args env
      (pyExitCode r.2, r.1)

/-- Modelled from the spec: the deterministic-script injection of the
replay engine (`httpproxy` is not under `src`).  A fixed fragment of inline
JavaScript is prepended to a replayed HTML document. -/
def injectDeterministicScript (body : String) : String :=
  "<script>/* fixed deterministic seed fragment */</script>" ++ body

/-- Modelled from the spec: the body served for a replayed response by the
selected server class (`httpproxy` and `replayspdyserver` are not under
`src`).  The plain replay server injects the deterministic script into HTML
when the option is enabled; injection is suppressed for encrypted SPDY
sessions, where the option has no effect. -/
def servedBody (cls : String) (detScript : Bool) (isHtml : Bool)
    (body : String) : String :=
  if cls = "ReplaySpdyServer" then body
  else if detScript && isHtml then injectDeterministicScript body
  else body

/-- Tags for the start/stop of the three scoped resources of `main`. -/
inductive Res where
  | dnsUp
  | dnsDown
  | repUp
  | repDown
  | shpUp
  | shpDown
  deriving Repr, DecidableEq

/-- Projection of a trace to the resource lifecycle events, discarding the
platform-settings DNS events. -/
def resourceTags (tr : List Event) : List Res :=
  tr.filterMap
    (fun e =>
      match e with
      | Event.dnsServerStart _ _ _ => some Res.dnsUp
      | Event.dnsServerStop => some Res.dnsDown
      | Event.replayStart _ _ _ _ _ _ _ _ => some Res.repUp
      | Event.replayStop => some Res.repDown
      | Event.shaperInstall _ _ _ _ _ _ _ => some Res.shpUp
      | Event.shaperRemove => some Res.shpDown
      | _ => none)

/-- Rewrites the host argument of every host-carrying event to `h`.  Used
to state that a configuration change affects a run only through the host
address. -/
def retargetHost (h : String) : Event → Event
  | Event.setPrimaryDns _ => Event.setPrimaryDns h
  | Event.dnsServerStart f p _ => Event.dnsServerStart f p h
  | Event.replayStart c file ds _ port ssl cf kf =>
      Event.replayStart c file ds h port ssl cf kf
  | Event.shaperInstall _ port u d dm l w =>
      Event.shaperInstall h port u d dm l w
  | e => e

/-- C6: the replay-server implementation is selected once at startup from
the command line: `--record` selects the record-mode HTTP proxy server
class, otherwise a truthy `--spdy` selects the SPDY replay server class,
and otherwise the plain HTTP/1.1 replay server class is used; record mode
never uses the SPDY path. -/
theorem replay_server_class_selection (o : Options) :
    (o.record = true → replay_server_class o = "RecordHttpProxyServer") ∧
    (o.record = false → spdyTruthy o = true →
        replay_server_class o = "ReplaySpdyServer") ∧
    (o.record = false → spdyTruthy o = false →
        replay_server_class o = "ReplayHttpProxyServer") ∧
    (o.record = true → replay_server_class o ≠ "ReplaySpdyServer") := by
  refine ⟨fun h => ?_, fun h hs => ?_, fun h hs => ?_, fun h => ?_⟩ <;>
    simp [replay_server_class, h]
  · simp [hs]
  · simp [hs]

/-- Witness for `replay_server_class_selection` at concrete option values. -/
theorem replay_server_class_selection_witness :
    replay_server_class { record := true } = "RecordHttpProxyServer" ∧
    replay_server_class { spdy := some "x" } = "ReplaySpdyServer" ∧
    replay_server_class {} = "ReplayHttpProxyServer" ∧
    replay_server_class { record := true, spdy := some "x" } ≠
      "ReplaySpdyServer" :=
  ⟨(replay_server_class_selection { record := true }).1 rfl,
   (replay_server_class_selection { spdy := some "x" }).2.1 rfl (by decide),
   (replay_server_class_selection {}).2.2.1 rfl (by decide),
   (replay_server_class_selection { record := true, spdy := some "x" }).2.2.2
     rfl⟩

/-- C9: the replay server is constructed with `use_ssl` false iff the spdy
option is the exact string `no-ssl`; in particular, without `--spdy`
(`options.spdy = False`), `use_ssl` is true. -/
theorem use_ssl_iff_no_ssl (o : Options) :
    (use_ssl o = false ↔ o.spdy = some "no-ssl") ∧
    (o.spdy = none → use_ssl o = true) := by
  constructor
  · simp [use_ssl]
  · intro h
    simp [use_ssl, h]

/-- Witness for `use_ssl_iff_no_ssl` at concrete option values. -/
theorem use_ssl_iff_no_ssl_witness :
    (use_ssl { spdy := some "no-ssl" } = false ↔
      ({ spdy := some "no-ssl" } : Options).spdy = some "no-ssl") ∧
    use_ssl {} = true :=
  ⟨(use_ssl_iff_no_ssl { spdy := some "no-ssl" }).1,
   (use_ssl_iff_no_ssl {}).2 rfl⟩

/-- C2 counterexample: `--record --init_cwnd 10` passes every validation
check (the `__main__` block checks `--up`, `--down`, `--delay_ms`,
`--packet_loss_rate` and `--spdy` against `--record`, but not
`--init_cwnd`), and the run proceeds to the servers with exit code 0
instead of being rejected with an argument error. -/
theorem record_with_init_cwnd_not_rejected :
    validate { record := true, init_cwnd := "10" } ["archive.wpr"] = none ∧
    (program { record := true, init_cwnd := "10" } ["archive.wpr"]
        { machineAddr := "10.0.0.2" }).1 = 0 ∧
    (program { record := true, init_cwnd := "10" } ["archive.wpr"]
        { machineAddr := "10.0.0.2" }).2 ≠ [] := by
  refine ⟨rfl, rfl, ?_⟩
  decide

/-- C2 amended: with `--record`, each of `--up`, `--down`, `--delay_ms`,
`--packet_loss_rate` set to a non-default value (and also a truthy
`--spdy`) is rejected by argument validation before any server is started;
`--init_cwnd` is not validated and may be combined with `--record`. -/
theorem record_excludes_shaping_flags (o : Options) (args : List String) :
    (o.record = true →
      (o.up ≠ "0" ∨ o.down ≠ "0" ∨ o.delay_ms ≠ "0" ∨
        o.packet_loss_rate ≠ "0" ∨ spdyTruthy o = true) →
      (validate o args).isSome = true) ∧
    (∀ env : Env, (validate o args).isSome = true →
      program o args env = (2, [])) ∧
    (∀ v : String, validate { record := true, init_cwnd := v } ["f"] = none) := by
  refine ⟨fun hrec hflags => ?_, fun env hv => ?_, fun v => ?_⟩
  · unfold validate
    repeat' split
    any_goals rfl
    rcases hflags with h | h | h | h | h <;> simp_all
  · unfold program
    rcases h : validate o args with _ | m
    · rw [h] at hv
      simp at hv
    · simp
  · simp [validate, serverTruthy, spdyTruthy]

/-- Witness for `record_excludes_shaping_flags` at concrete inputs. -/
theorem record_excludes_shaping_flags_witness :
    (validate { record := true, up := "1Mbit/s" } ["a.wpr"]).isSome = true ∧
    program { record := true, up := "1Mbit/s" } ["a.wpr"]
      { machineAddr := "m" } = (2, []) ∧
    validate { record := true, init_cwnd := "7" } ["f"] = none :=
  ⟨(record_excludes_shaping_flags { record := true, up := "1Mbit/s" }
      ["a.wpr"]).1 rfl (Or.inl (by decide)),
   (record_excludes_shaping_flags { record := true, up := "1Mbit/s" }
      ["a.wpr"]).2.1 { machineAddr := "m" }
     ((record_excludes_shaping_flags { record := true, up := "1Mbit/s" }
        ["a.wpr"]).1 rfl (Or.inl (by decide))),
   (record_excludes_shaping_flags { record := true, init_cwnd := "7" }
      ["f"]).2.2 "7"⟩

/-- C10: giving both `--server` and `--server_mode` is rejected by
argument validation with exit code 2 and an empty event trace, so no DNS
change, server start or shaping rule happens. -/
theorem server_with_server_mode_rejected (o : Options) (args : List String)
    (env : Env) :
    serverTruthy o = true → o.server_mode = true →
    (validate o args).isSome = true ∧ program o args env = (2, []) := by
  intro hs hm
  have hv : (validate o args).isSome = true := by
    unfold validate
    repeat' split
    any_goals rfl
    simp_all
  refine ⟨hv, ?_⟩
  unfold program
  rcases h : validate o args with _ | m
  · rw [h] at hv
    simp at hv
  · simp

/-- Witness for `server_with_server_mode_rejected` at a concrete input. -/
theorem server_with_server_mode_rejected_witness :
    (validate { server := some "1.2.3.4", server_mode := true }
        ["a.wpr"]).isSome = true ∧
    program { server := some "1.2.3.4", server_mode := true } ["a.wpr"]
      { machineAddr := "m" } = (2, []) :=
  server_with_server_mode_rejected
    { server := some "1.2.3.4", server_mode := true } ["a.wpr"]
    { machineAddr := "m" } (by decide) rfl

/-- C3 counterexample: on an argument error (`--record --up 1Mbit/s`),
`option_parser.error` exits the process with code 2, not 1; and on an
archive I/O error (an exception escaping the replay-server constructor in
replay mode), `main` catches it with the bare `except:` clause and returns
`None`, so the process exits 0, not 3. -/
theorem exit_codes_counterexample :
    (validate { record := true, up := "1Mbit/s" } ["b.wpr"]).isSome = true ∧
    (program { record := true, up := "1Mbit/s" } ["b.wpr"]
        { machineAddr := "m" }).1 = 2 ∧
    (program {} ["b.wpr"]
        { machineAddr := "m", replayStartExc := some Exc.otherExc }).1 = 0 := by
  refine ⟨rfl, rfl, rfl⟩

/-- C3 amended: the process exit code is 2 on any argument error
(`option_parser.error` calls `sys.exit(2)`); on every other completion in
which `main` returns, the exit code is 0, because `main` catches every
exception of its `try` block (`KeyboardInterrupt`, `DnsProxyException`,
`TrafficShaperException`, and anything else, including archive I/O errors)
and returns `None`; in client mode a SIGINT likewise ends the process with
exit code 0.  Exit code 1 occurs only when an exception escapes `main`,
which is possible only in client mode, where `point_dns` runs outside the
`try` block. -/
theorem exit_codes_amended (o : Options) (args : List String) (env : Env) :
    ((validate o args).isSome = true → (program o args env).1 = 2) ∧
    (validate o args = none → serverTruthy o = false →
        (program o args env).1 = 0) ∧
    (validate o args = none → serverTruthy o = true →
        env.setDnsExc = none → env.loopExc = Exc.keyboardInterrupt →
        (program o args env).1 = 0) := by
  refine ⟨fun hv => ?_, fun hv hs => ?_, fun hv hs hd hl => ?_⟩
  · unfold program
    rcases h : validate o args with _ | m
    · rw [h] at hv
      simp at hv
    · simp
  · simp [program, hv, mainRun, hs, pyExitCode]
  · simp [program, hv, mainRun, hs, point_dns, hd, hl, pyExitCode]

/-- Witness for `exit_codes_amended` at concrete inputs. -/
theorem exit_codes_amended_witness :
    (program { record := true, down := "4Mbit/s" } ["c.wpr"]
        { machineAddr := "m" }).1 = 2 ∧
    (program {} ["c.wpr"]
        { machineAddr := "m", shaperStartExc := some Exc.trafficShaperException }).1 = 0 ∧
    (program { server := some "10.0.0.7" } []
        { machineAddr := "m" }).1 = 0 :=
  ⟨(exit_codes_amended { record := true, down := "4Mbit/s" } ["c.wpr"]
      { machineAddr := "m" }).1 (by decide),
   (exit_codes_amended {} ["c.wpr"]
      { machineAddr := "m", shaperStartExc := some Exc.trafficShaperException }).2.1
     (by decide) rfl,
   (exit_codes_amended { server := some "10.0.0.7" } []
      { machineAddr := "m" }).2.2 (by decide) (by decide) rfl rfl⟩

/-- C8: without a truthy `--server`, validation fails with the
`Must specify a replay_file` error unless exactly one positional argument
is supplied, and the failing run exits 2 with no side effect; with
`--server` given, `main` enters client mode (`point_dns`) without reading
the positional arguments, and (with the other options at their defaults)
validation passes with no positional argument at all. -/
theorem replay_file_required (o : Options) (args : List String) (env : Env) :
    (serverTruthy o = false → args.length ≠ 1 →
        validate o args = some "Must specify a replay_file" ∧
        program o args env = (2, [])) ∧
    (serverTruthy o = true →
        mainRun o args env = point_dns o env.setDnsExc env.loopExc) ∧
    (serverTruthy o = true → o.record = false → o.server_mode = false →
        validate o args = none) := by
  refine ⟨fun hs hl => ?_, fun hs => ?_, fun hs hr hm => ?_⟩
  · have hv : validate o args = some "Must specify a replay_file" := by
      simp [validate, hs, hl]
    exact ⟨hv, by simp [program, hv]⟩
  · simp [mainRun, hs]
  · simp [validate, hs, hr, hm]

/-- Witness for `replay_file_required` at concrete inputs. -/
theorem replay_file_required_witness :
    (validate {} [] = some "Must specify a replay_file" ∧
      program {} [] { machineAddr := "m" } = (2, [])) ∧
    mainRun { server := some "10.1.1.1" } [] { machineAddr := "m" } =
      point_dns { server := some "10.1.1.1" } none Exc.keyboardInterrupt ∧
    validate { server := some "10.1.1.1" } [] = none :=
  ⟨(replay_file_required {} [] { machineAddr := "m" }).1 rfl (by decide),
   (replay_file_required { server := some "10.1.1.1" } []
      { machineAddr := "m" }).2.1 (by decide),
   (replay_file_required { server := some "10.1.1.1" } []
      { machineAddr := "m" }).2.2 (by decide) rfl rfl⟩

/-- C4: in client mode (truthy `--server`), the run calls
`set_primary_dns` with the server address from the options and then
blocks; on every exit path, including the `KeyboardInterrupt` raised by
SIGINT, `restore_primary_dns` runs (the `finally` block), so the primary
DNS state after the trace equals its value at entry; a SIGINT exit is
clean (no escaping exception). -/
theorem client_mode_dns_restored (o : Options) (args : List String)
    (env : Env) :
    serverTruthy o = true →
    (env.setDnsExc = none →
        (mainRun o args env).1.head? =
          some (Event.setPrimaryDns (serverAddr o))) ∧
    (mainRun o args env).1.getLast? = some Event.restorePrimaryDns ∧
    (∀ entry : String, applyDnsState entry (mainRun o args env).1 = entry) ∧
    (env.setDnsExc = none → env.loopExc = Exc.keyboardInterrupt →
        (mainRun o args env).2 = none) := by
  intro hs
  rcases hd : env.setDnsExc with _ | e <;>
    refine ⟨fun h => ?_, ?_, fun entry => ?_, fun h1 h2 => ?_⟩ <;>
      simp_all [mainRun, point_dns, applyDnsState]

/-- Witness for `client_mode_dns_restored` at a concrete input. -/
theorem client_mode_dns_restored_witness :
    (mainRun { server := some "10.0.0.7" } [] { machineAddr := "m" }).1.head? =
      some (Event.setPrimaryDns (serverAddr { server := some "10.0.0.7" })) ∧
    (mainRun { server := some "10.0.0.7" } []
        { machineAddr := "m" }).1.getLast? = some Event.restorePrimaryDns ∧
    applyDnsState "8.8.8.8"
      (mainRun { server := some "10.0.0.7" } [] { machineAddr := "m" }).1 =
      "8.8.8.8" ∧
    (mainRun { server := some "10.0.0.7" } [] { machineAddr := "m" }).2 =
      none :=
  ⟨(client_mode_dns_restored { server := some "10.0.0.7" } []
      { machineAddr := "m" } (by decide)).1 rfl,
   (client_mode_dns_restored { server := some "10.0.0.7" } []
      { machineAddr := "m" } (by decide)).2.1,
   (client_mode_dns_restored { server := some "10.0.0.7" } []
      { machineAddr := "m" } (by decide)).2.2.1 "8.8.8.8",
   (client_mode_dns_restored { server := some "10.0.0.7" } []
      { machineAddr := "m" } (by decide)).2.2.2 rfl rfl⟩

/-- C7: when SPDY replay is selected (truthy `--spdy`, not record mode),
the served body is independent of the deterministic-script option (the
injection is suppressed), and an invocation passing validation with the
option enabled produces the warning of the `__main__` block. -/
theorem spdy_suppresses_deterministic_script (o : Options)
    (args : List String) (isHtml : Bool) (body : String) :
    spdyTruthy o = true → o.record = false →
    (∀ ds1 ds2 : Bool,
        servedBody (replay_server_class o) ds1 isHtml body =
        servedBody (replay_server_class o) ds2 isHtml body) ∧
    servedBody (replay_server_class o) o.deterministic_script isHtml body =
      body ∧
    ((validate o args).isNone = true → o.deterministic_script = true →
        spdyDeterministicWarning o args = true) := by
  intro hs hr
  have hcls : replay_server_class o = "ReplaySpdyServer" := by
    simp [replay_server_class, hr, hs]
  refine ⟨fun ds1 ds2 => ?_, ?_, fun hv hd => ?_⟩
  · simp [servedBody, hcls]
  · simp [servedBody, hcls]
  · simp [spdyDeterministicWarning, hv, hs, hd]

/-- Witness for `spdy_suppresses_deterministic_script` at concrete
inputs. -/
theorem spdy_suppresses_deterministic_script_witness :
    servedBody (replay_server_class { spdy := some "x" }) true true
        "<html></html>" =
      servedBody (replay_server_class { spdy := some "x" }) false true
        "<html></html>" ∧
    servedBody (replay_server_class { spdy := some "x" })
        ({ spdy := some "x" } : Options).deterministic_script true
        "<html></html>" = "<html></html>" ∧
    spdyDeterministicWarning { spdy := some "x" } ["a.wpr"] = true :=
  ⟨(spdy_suppresses_deterministic_script { spdy := some "x" } ["a.wpr"]
      true "<html></html>" (by decide) rfl).1 true false,
   (spdy_suppresses_deterministic_script { spdy := some "x" } ["a.wpr"]
      true "<html></html>" (by decide) rfl).2.1,
   (spdy_suppresses_deterministic_script { spdy := some "x" } ["a.wpr"]
      true "<html></html>" (by decide) rfl).2.2 (by decide) rfl⟩

/-- C5: the supervisor enters the scoped resources in the fixed order DNS
server, replay server, traffic shaper, and tears them down in exactly the
reverse order on every exit path: the resource events of any run form one
of the four nested patterns, and a run in which every construction
succeeds produces the full nesting. -/
theorem scoped_resource_order (o : Options) (args : List String)
    (env : Env) :
    (resourceTags (mainRun o args env).1 = [] ∨
     resourceTags (mainRun o args env).1 = [Res.dnsUp, Res.dnsDown] ∨
     resourceTags (mainRun o args env).1 =
       [Res.dnsUp, Res.repUp, Res.repDown, Res.dnsDown] ∨
     resourceTags (mainRun o args env).1 =
       [Res.dnsUp, Res.repUp, Res.shpUp, Res.shpDown, Res.repDown,
        Res.dnsDown]) ∧
    (serverTruthy o = false → args ≠ [] → env.dnsStartExc = none →
      env.replayStartExc = none → env.shaperStartExc = none →
      resourceTags (mainRun o args env).1 =
        [Res.dnsUp, Res.repUp, Res.shpUp, Res.shpDown, Res.repDown,
         Res.dnsDown]) := by
  cases hs : serverTruthy o
  case true =>
    refine ⟨?_, fun h1 _ _ _ _ => Bool.noConfusion h1⟩
    rcases he : env.setDnsExc with _ | e0 <;>
      exact Or.inl (by simp [mainRun, hs, point_dns, he, resourceTags])
  case false =>
    rcases args with _ | ⟨f, rest⟩
    · exact ⟨Or.inl (by simp [mainRun, hs, resourceTags]),
        fun _ hne => absurd rfl hne⟩
    · rcases hd : env.dnsStartExc with _ | e1
      · rcases hr : env.replayStartExc with _ | e2
        · rcases hsh : env.shaperStartExc with _ | e3
          · have htags : resourceTags (mainRun o (f :: rest) env).1 =
                [Res.dnsUp, Res.repUp, Res.shpUp, Res.shpDown, Res.repDown,
                 Res.dnsDown] := by
              cases hf : o.dns_forwarding <;>
                simp [mainRun, hs, dnsBlock, hd, replayBlock, hr, shaperBlock,
                  hsh, dnsEnterTrace, dnsExitTrace, hf, resourceTags]
            exact ⟨Or.inr (Or.inr (Or.inr htags)), fun _ _ _ _ _ => htags⟩
          · have htags : resourceTags (mainRun o (f :: rest) env).1 =
                [Res.dnsUp, Res.repUp, Res.repDown, Res.dnsDown] := by
              cases hf : o.dns_forwarding <;>
                simp [mainRun, hs, dnsBlock, hd, replayBlock, hr, shaperBlock,
                  hsh, dnsEnterTrace, dnsExitTrace, hf, resourceTags]
            exact ⟨Or.inr (Or.inr (Or.inl htags)),
              fun _ _ _ _ h5 => Option.noConfusion h5⟩
        · have htags : resourceTags (mainRun o (f :: rest) env).1 =
              [Res.dnsUp, Res.dnsDown] := by
            cases hf : o.dns_forwarding <;>
              simp [mainRun, hs, dnsBlock, hd, replayBlock, hr,
                dnsEnterTrace, dnsExitTrace, hf, resourceTags]
          exact ⟨Or.inr (Or.inl htags),
            fun _ _ _ h4 _ => Option.noConfusion h4⟩
      · exact ⟨Or.inl (by simp [mainRun, hs, dnsBlock, hd, resourceTags]),
          fun _ _ h3 _ _ => Option.noConfusion h3⟩

/-- Witness for `scoped_resource_order` at a concrete input. -/
theorem scoped_resource_order_witness :
    resourceTags (mainRun {} ["a.wpr"] { machineAddr := "m" }).1 =
      [Res.dnsUp, Res.repUp, Res.shpUp, Res.shpDown, Res.repDown,
       Res.dnsDown] :=
  (scoped_resource_order {} ["a.wpr"] { machineAddr := "m" }).2
    (by decide) (by decide) rfl rfl rfl

/-- Helper: the shaper block does not read `server_mode` and carries the
host only in its install event. -/
theorem map_retarget_shaperBlock (o : Options) (h0 h : String) (env : Env) :
    (shaperBlock o h0 env).map (retargetHost h) = shaperBlock o h env := by
  rcases hsh : env.shaperStartExc with _ | e <;>
    simp [shaperBlock, hsh, retargetHost]

/-- Helper: retargeting the replay block rewrites exactly its host
arguments. -/
theorem map_retarget_replayBlock (o : Options) (f h0 h : String) (env : Env) :
    (replayBlock o f h0 env).map (retargetHost h) = replayBlock o f h env := by
  rcases hr : env.replayStartExc with _ | e <;>
    simp [replayBlock, hr, retargetHost, map_retarget_shaperBlock]

/-- Helper: retargeting the DNS-server entry trace rewrites exactly its
host arguments. -/
theorem map_retarget_dnsEnterTrace (o : Options) (h0 h : String) :
    (dnsEnterTrace o h0).map (retargetHost h) = dnsEnterTrace o h := by
  cases hf : o.dns_forwarding <;>
    simp [dnsEnterTrace, hf, retargetHost]

/-- Helper: the DNS-server exit trace has no host argument. -/
theorem map_retarget_dnsExitTrace (o : Options) (h : String) :
    (dnsExitTrace o).map (retargetHost h) = dnsExitTrace o := by
  cases hf : o.dns_forwarding <;>
    simp [dnsExitTrace, hf, retargetHost]

/-- Helper: retargeting the whole DNS block rewrites exactly its host
arguments. -/
theorem map_retarget_dnsBlock (o : Options) (f h0 h : String) (env : Env) :
    (dnsBlock o f h0 env).map (retargetHost h) = dnsBlock o f h env := by
  rcases hd : env.dnsStartExc with _ | e <;>
    simp [dnsBlock, hd, map_retarget_dnsEnterTrace, map_retarget_replayBlock,
      map_retarget_dnsExitTrace]

/-- Helper: no trace block of `main` reads `server_mode`; the flag reaches
the run only through `get_server_address`. -/
theorem dnsBlock_ignores_server_mode (o : Options) (f h : String)
    (env : Env) :
    dnsBlock { o with server_mode := false } f h env = dnsBlock o f h env :=
  rfl

/-- C1 counterexample: with `--server_mode` alone (no `--server`), the run
still points the primary DNS at the replay host (here the machine's
external address `192.168.0.5`), still starts the DNS proxy with
forwarding enabled, and still installs the traffic shaper; it does not run
only the replay server. -/
theorem server_mode_installs_redirect_and_shaping :
    Event.setPrimaryDns "192.168.0.5" ∈
      (mainRun { server_mode := true } ["archive.wpr"]
        { machineAddr := "192.168.0.5" }).1 ∧
    Event.dnsServerStart true true "192.168.0.5" ∈
      (mainRun { server_mode := true } ["archive.wpr"]
        { machineAddr := "192.168.0.5" }).1 ∧
    Event.shaperInstall "192.168.0.5" 80 "0" "0" "0" "0" "0" ∈
      (mainRun { server_mode := true } ["archive.wpr"]
        { machineAddr := "192.168.0.5" }).1 := by
  decide

/-- C1 amended: for every invocation with `--server_mode` set and no
`--server`, the run is identical to the run without `--server_mode`
except that every host argument (the DNS redirect target, the DNS server,
the replay server, and the traffic shaper) is the machine's externally
visible address instead of `127.0.0.1`; in particular DNS redirection and
traffic shaping are still installed. -/
theorem server_mode_only_changes_host (o : Options) (args : List String)
    (env : Env) :
    serverTruthy o = false → o.server_mode = true →
    mainRun o args env =
      ((mainRun { o with server_mode := false } args env).1.map
          (retargetHost env.machineAddr),
       (mainRun { o with server_mode := false } args env).2) := by
  intro hs hm
  have hs2 : serverTruthy { o with server_mode := false } = false := hs
  rcases args with _ | ⟨f, rest⟩
  · simp [mainRun, hs, hs2]
  · have e1 : mainRun o (f :: rest) env =
        (dnsBlock o f env.machineAddr env, none) := by
      simp [mainRun, hs, get_server_address, hm]
    have e2 : mainRun { o with server_mode := false } (f :: rest) env =
        (dnsBlock o f "127.0.0.1" env, none) := by
      simp [mainRun, hs2, get_server_address, dnsBlock_ignores_server_mode]
    rw [e1, e2]
    simp [map_retarget_dnsBlock]

/-- Witness for `server_mode_only_changes_host` at a concrete input. -/
theorem server_mode_only_changes_host_witness :
    mainRun { server_mode := true } ["b.wpr"] { machineAddr := "10.0.0.9" } =
      ((mainRun { ({ server_mode := true } : Options) with
            server_mode := false } ["b.wpr"]
          { machineAddr := "10.0.0.9" }).1.map (retargetHost "10.0.0.9"),
       (mainRun { ({ server_mode := true } : Options) with
            server_mode := false } ["b.wpr"]
          { machineAddr := "10.0.0.9" }).2) :=
  server_mode_only_changes_host { server_mode := true } ["b.wpr"]
    { machineAddr := "10.0.0.9" } rfl rfl
